import Mathlib

/-!
Shallow embedding of the web-ui agent/monitor prompt-assembly core:
`src/agent/custom_prompts.py`, `src/agent/custom_views.py` and
`src/controller/custom_controller.py`.

Python strings are modelled as `List Char` (`Str`); f-string interpolation
becomes list append, `str(int)` becomes `toString`.  Python runtime
exceptions that the embedded code can raise (AttributeError on a `None`
step_info, IndexError on `self.actions[i]`, NameError on the monitor's
unbound `state` variable) are modelled with `Except PyErr`.
-/

/-- Python `str`, modelled as its character list. -/
abbrev Str := List Char

/-- Shorthand: the character list of a Lean string literal. -/
def str (s : String) : Str := s.data

/-- Python truthiness of an `Optional[str]`: `None` and `""` are falsy. -/
def truthy (o : Option Str) : Bool :=
  match o with
  | none => false
  | some s => !s.isEmpty

/-- CPython slice `s[-n:]` for `n ≥ 0`: for `n = 0` it is `s[0:]`, the whole
string; otherwise the last `min n (len s)` characters. -/
def pySliceLast (n : Nat) (s : Str) : Str :=
  if n = 0 then s else s.drop (s.length - n)

/-- Substring occurrence test (used to state counterexamples decidably). -/
def containsSeg (pat : Str) : Str → Bool
  | [] => pat.isEmpty
  | c :: rest => pat.isPrefixOf (c :: rest) || containsSeg pat rest

theorem containsSeg_iff_infix (pat s : Str) : containsSeg pat s = true ↔ pat <:+: s := by
  induction s with
  | nil =>
    simp [containsSeg, List.isEmpty_iff, List.infix_nil]
  | cons c rest ih =>
    simp only [containsSeg, Bool.or_eq_true, List.isPrefixOf_iff_prefix, ih,
      List.infix_cons_iff]

/-- `src/agent/custom_prompts.py` lines 163–182 / 310–328 / 476–495 (the same
code appears verbatim in all three `get_user_message` bodies): wrap the
serialized clickable-element listing with page fences or scroll hints.
`pxAbove`/`pxBelow` model `self.state.pixels_above` / `pixels_below`
(`Optional[int]`); `(x or 0) > 0` becomes `0 < getD 0`.  On the truthy
branches the f-string interpolates the raw optional, which there is a
positive `some`, hence equal to `getD 0`. -/
def wrapElementsText (raw : Str) (pxAbove pxBelow : Option Int) : Str :=
  let hasContentAbove := 0 < pxAbove.getD 0
  let hasContentBelow := 0 < pxBelow.getD 0
  if raw ≠ [] then
    let t :=
      if hasContentAbove then
        str "... " ++ str (toString (pxAbove.getD 0)) ++
          str " pixels above - scroll or extract content to see more ...\n" ++ raw
      else
        str "[Start of page]\n" ++ raw
    if hasContentBelow then
      t ++ str "\n... " ++ str (toString (pxBelow.getD 0)) ++
        str " pixels below - scroll or extract content to see more ..."
    else
      t ++ str "\n[End of page]"
  else
    str "empty page"

/-- Runtime exceptions the embedded Python can raise. -/
inductive PyErr where
  | attributeError
  | indexError
  | nameError
deriving DecidableEq, Repr

/-- `browser_use.agent.views.ActionModel` at the use sites of this repo: the
only operation the prompt code performs on it is
`model_dump_json(exclude_unset=True)`, modelled as a field carrying that
serialized form. -/
structure ActionModel where
  modelDumpJson : Str
deriving DecidableEq, Repr

/-- Modelled from the spec: `ActionResult` (spec §3) is defined in the
external `browser_use` package, outside `src/`.  Its fields are
`extracted_content : optional string`, `error : optional string`, and
`include_in_memory : boolean`; a constructor call that omits a field leaves
it at its default (`None`, `None`, `False`), which is how
`copy_to_clipboard`'s result keeps `include_in_memory` false while
`extract_content` sets it explicitly. -/
structure ActionResult where
  extractedContent : Option Str := none
  error : Option Str := none
  includeInMemory : Bool := false
deriving DecidableEq, Repr

/-- `src/agent/custom_views.py` lines 9–17: `CustomAgentStepInfo`. -/
structure CustomAgentStepInfo where
  stepNumber : Int
  maxSteps : Int
  task : Str
  addInfos : Str
  memory : Str
  taskProgress : Str
  futurePlans : Str
deriving DecidableEq, Repr

/-- `src/agent/custom_views.py` lines 57–67: `CustomAgentStepInfoV2`. -/
structure CustomAgentStepInfoV2 where
  stepNumber : Int
  maxSteps : Int
  task : Str
  addInfos : Str
  prevActionEvaluation : Str
  memory : Str
  taskProgress : Str
  futurePlans : Str
  isDone : Bool
deriving DecidableEq, Repr

/-- `browser_use.browser.views.BrowserState` as consumed by the prompt code:
`url` and the `str()`-rendering of `tabs`, the output of
`element_tree.clickable_elements_to_string(...)` (an external collaborator,
carried as a field), the optional scroll offsets, and the optional base64
screenshot. -/
structure BrowserState where
  url : Str
  tabs : Str
  elementsText : Str
  pixelsAbove : Option Int := none
  pixelsBelow : Option Int := none
  screenshot : Option Str := none
deriving DecidableEq, Repr

/-- A LangChain `HumanMessage` as built by the prompt code: either plain text
or a two-part multimodal content list (text part plus image-url part). -/
inductive HumanMessage where
  | textOnly (text : Str)
  | textWithImage (text : Str) (imageUrl : Str)
deriving DecidableEq, Repr

/-- The text part of a `HumanMessage`. -/
def messageText : HumanMessage → Str
  | .textOnly t => t
  | .textWithImage t _ => t

/-- One iteration of the previous-actions loop of
`CustomAgentMessagePrompt.get_user_message` (lines 201–212) and
`CustomAgentMessagePromptV2.get_user_message` (lines 518–529), which are
identical: the action line, then — only when `include_in_memory` and the
field is truthy — a content line and/or a truncated-error line. -/
def resultLine (maxErrorLength : Nat) (n i : Nat) (action : ActionModel)
    (result : ActionResult) : Str :=
  let line := str "Previous action " ++ str (toString (i + 1)) ++ str "/" ++
    str (toString n) ++ str ": " ++ action.modelDumpJson ++ str "\n"
  if result.includeInMemory then
    let line :=
      if truthy result.extractedContent then
        line ++ str "Result of previous action " ++ str (toString (i + 1)) ++ str "/" ++
          str (toString n) ++ str ": " ++ result.extractedContent.getD [] ++ str "\n"
      else line
    if truthy result.error then
      line ++ str "Error of previous action " ++ str (toString (i + 1)) ++ str "/" ++
        str (toString n) ++ str ": ..." ++
        pySliceLast maxErrorLength (result.error.getD []) ++ str "\n"
    else line
  else line

/-- One iteration of `MonitorAgentMessagePrompt.get_user_message`'s loop
(lines 296–306): identical to `resultLine` except that the content and error
lines end with `" \n"` instead of `"\n"`. -/
def monitorResultLine (maxErrorLength : Nat) (n i : Nat) (action : ActionModel)
    (result : ActionResult) : Str :=
  let line := str "Previous action " ++ str (toString (i + 1)) ++ str "/" ++
    str (toString n) ++ str ": " ++ action.modelDumpJson ++ str "\n"
  if result.includeInMemory then
    let line :=
      if truthy result.extractedContent then
        line ++ str "Result of previous action " ++ str (toString (i + 1)) ++ str "/" ++
          str (toString n) ++ str ": " ++ result.extractedContent.getD [] ++ str " \n"
      else line
    if truthy result.error then
      line ++ str "Error of previous action " ++ str (toString (i + 1)) ++ str "/" ++
        str (toString n) ++ str ": ..." ++
        pySliceLast maxErrorLength (result.error.getD []) ++ str " \n"
    else line
  else line

/-- The `for i, result in enumerate(self.result)` loop shared by all three
`get_user_message` bodies, parametrized by the per-iteration line builder.
`self.actions[i]` raises `IndexError` when `i` is out of range. -/
def prevGo (lineF : Nat → ActionModel → ActionResult → Str)
    (actions : List ActionModel) : Nat → List ActionResult → Except PyErr Str
  | _, [] => .ok []
  | i, r :: rs =>
    match actions.get? i with
    | none => .error .indexError
    | some a =>
      match prevGo lineF actions (i + 1) rs with
      | .ok rest => .ok (lineF i a r ++ rest)
      | .error e => .error e

/-- The previous-actions loop of the V1 and V2 agent prompts. -/
def prevActionsLines (maxErrorLength : Nat) (actions : List ActionModel)
    (results : List ActionResult) : Except PyErr Str :=
  prevGo (resultLine maxErrorLength results.length) actions 0 results

/-- The previous-actions loop of the monitor prompt. -/
def monitorPrevActionsLines (maxErrorLength : Nat) (actions : List ActionModel)
    (results : List ActionResult) : Except PyErr Str :=
  prevGo (monitorResultLine maxErrorLength results.length) actions 0 results

/-- The triple-quoted `state_description` template of
`CustomAgentMessagePrompt.get_user_message` (lines 158–196), reproduced
exactly, trailing spaces and the closing 8-space indent included.
`step_info_description` is inlined on the `some` path (the `None` path never
reaches the template, see `customAgentGetUserMessage`). -/
def v1StateDescription (state : BrowserState) (si : CustomAgentStepInfo) : Str :=
  str "\nCurrent step: " ++ str (toString si.stepNumber) ++ str "/" ++
  str (toString si.maxSteps) ++ str "\n\n1. Task: " ++ si.task ++
  str ". \n2. Hints(Optional): \n" ++ si.addInfos ++
  str "\n3. Memory: \n" ++ si.memory ++
  str "\n4. Current url: " ++ state.url ++
  str "\n5. Available tabs:\n" ++ state.tabs ++
  str "\n6. Interactive elements:\n" ++
  wrapElementsText state.elementsText state.pixelsAbove state.pixelsBelow ++
  str "\n        "

/-- Lines 198–212: the `**Previous Actions**` block of the V1 agent prompt,
appended only when `self.actions and self.result` is truthy (both non-`None`
and non-empty). -/
def v1Block (actions : Option (List ActionModel)) (result : Option (List ActionResult))
    (maxErrorLength : Nat) (si : CustomAgentStepInfo) : Except PyErr Str :=
  match actions, result with
  | some as, some rs =>
    if as.isEmpty || rs.isEmpty then .ok []
    else
      match prevActionsLines maxErrorLength as rs with
      | .ok lines =>
        .ok (str "\n **Previous Actions** \nPrevious step: " ++
          str (toString (si.stepNumber - 1)) ++ str "/" ++
          str (toString si.maxSteps) ++ str " \n" ++ lines)
      | .error e => .error e
  | _, _ => .ok []

/-- `CustomAgentMessagePrompt.get_user_message` (lines 157–228).
`self.step_info` is `Optional`; with `None` the guarded
`step_info_description` would be `''` but the unguarded
`self.step_info.task` in the template raises `AttributeError`.
`if self.state.screenshot:` is a *truthiness* test: a screenshot that is
`None` or the empty string is falsy and yields the text-only message; on
the truthy branch the f-string interpolates the screenshot itself, which
there equals `getD []`. -/
def customAgentGetUserMessage (state : BrowserState)
    (actions : Option (List ActionModel)) (result : Option (List ActionResult))
    (maxErrorLength : Nat) (stepInfo : Option CustomAgentStepInfo) :
    Except PyErr HumanMessage :=
  match stepInfo with
  | none => .error .attributeError
  | some si =>
    match v1Block actions result maxErrorLength si with
    | .error e => .error e
    | .ok block =>
      let full := v1StateDescription state si ++ block
      if truthy state.screenshot then
        .ok (.textWithImage full
          (str "data:image/png;base64," ++ state.screenshot.getD []))
      else
        .ok (.textOnly full)

/-- Lines 293–308: the previous-actions section of the monitor prompt;
when `self.actions and self.result` is falsy the `else` branch emits the
fixed "No previous actions" line instead. -/
def monitorBlock (actions : Option (List ActionModel)) (result : Option (List ActionResult))
    (maxErrorLength : Nat) (si : CustomAgentStepInfo) : Except PyErr Str :=
  match actions, result with
  | some as, some rs =>
    if as.isEmpty || rs.isEmpty then
      .ok (str "2. Previous Actions: No previous actions. \n")
    else
      match monitorPrevActionsLines maxErrorLength as rs with
      | .ok lines =>
        .ok (str "2. Previous Actions in Previou Step " ++
          str (toString (si.stepNumber - 1)) ++ str ": \n" ++ lines)
      | .error e => .error e
  | _, _ => .ok (str "2. Previous Actions: No previous actions. \n")

/-- `MonitorAgentMessagePrompt.get_user_message` (lines 290–345).
`if self.state.screenshot:` is a truthiness test (`None` and `""` are
falsy and yield the normal text-only message); on the truthy branch the
f-string reads the bare name `state`, which is unbound in that scope (the
attribute is `self.state`), so a snapshot carrying a *non-empty* screenshot
raises `NameError` instead of producing the multimodal message. -/
def monitorAgentGetUserMessage (state : BrowserState)
    (actions : Option (List ActionModel)) (result : Option (List ActionResult))
    (maxErrorLength : Nat) (stepInfo : Option CustomAgentStepInfo) :
    Except PyErr HumanMessage :=
  match stepInfo with
  | none => .error .attributeError
  | some si =>
    match monitorBlock actions result maxErrorLength si with
    | .error e => .error e
    | .ok block =>
      let stateDescription :=
        str "Current step: " ++ str (toString si.stepNumber) ++ str "/" ++
        str (toString si.maxSteps) ++ str "1. Task: " ++ si.task ++ str " \n" ++
        block ++
        str "3. Interactive elements in Step " ++ str (toString si.stepNumber) ++
        str ": \n" ++
        wrapElementsText state.elementsText state.pixelsAbove state.pixelsBelow ++
        str "\n"
      if truthy state.screenshot then
        .error .nameError
      else
        .ok (.textOnly stateDescription)

/-- The `state_description` template of
`CustomAgentMessagePromptV2.get_user_message` (lines 475–513), reproduced
exactly: each template line carries a 4-space indent, the numbered values
sit on indented continuation lines, and the closing line is a 12-space
indent. -/
def v2StateDescription (state : BrowserState) (si : CustomAgentStepInfoV2) : Str :=
  str "Current Step: " ++ str (toString si.stepNumber) ++ str "/" ++
  str (toString si.maxSteps) ++ str "\n" ++
  str "\n    1. Task: " ++ si.task ++
  str "\n    2. Hints(Optional): \n    " ++ si.addInfos ++
  str "\n    3. Previous Action Evaluation:\n    " ++ si.prevActionEvaluation ++
  str "\n    4. Memory: \n    " ++ si.memory ++
  str "\n    5. Task Progress: \n    " ++ si.taskProgress ++
  str "\n    6. Future Plans:\n    " ++ si.futurePlans ++
  str "\n    7. Current url: " ++ state.url ++
  str "\n    8. Available tabs:\n    " ++ state.tabs ++
  str "\n    9. Interactive elements:\n    " ++
  wrapElementsText state.elementsText state.pixelsAbove state.pixelsBelow ++
  str "\n            "

/-- Lines 515–529: the `**Previous Actions**` block of the V2 agent prompt;
unlike V1 its `Previous step:` header has no trailing `" \n"`. -/
def v2Block (actions : Option (List ActionModel)) (result : Option (List ActionResult))
    (maxErrorLength : Nat) (si : CustomAgentStepInfoV2) : Except PyErr Str :=
  match actions, result with
  | some as, some rs =>
    if as.isEmpty || rs.isEmpty then .ok []
    else
      match prevActionsLines maxErrorLength as rs with
      | .ok lines =>
        .ok (str "\n **Previous Actions** \nPrevious step: " ++
          str (toString (si.stepNumber - 1)) ++ str "/" ++
          str (toString si.maxSteps) ++ lines)
      | .error e => .error e
  | _, _ => .ok []

/-- `CustomAgentMessagePromptV2.get_user_message` (lines 474–545).  Accesses
`self.step_info.prev_action_evaluation` etc., so its step info is the V2
record.  `if self.state.screenshot:` is a truthiness test, as in V1. -/
def customAgentV2GetUserMessage (state : BrowserState)
    (actions : Option (List ActionModel)) (result : Option (List ActionResult))
    (maxErrorLength : Nat) (stepInfo : Option CustomAgentStepInfoV2) :
    Except PyErr HumanMessage :=
  match stepInfo with
  | none => .error .attributeError
  | some si =>
    match v2Block actions result maxErrorLength si with
    | .error e => .error e
    | .ok block =>
      let full := v2StateDescription state si ++ block
      if truthy state.screenshot then
        .ok (.textWithImage full
          (str "data:image/png;base64," ++ state.screenshot.getD []))
      else
        .ok (.textOnly full)

/-- The required-field set of `CustomAgentBrain`
(`src/agent/custom_views.py` lines 20–28): every field is a `str` with no
default, so pydantic requires each of them. -/
def customAgentBrainFields : List String :=
  ["prev_action_evaluation", "important_contents", "task_progress",
   "future_plans", "thought", "summary"]

/-- The required-field set of `CustomAgentBrainV2` (lines 70–73). -/
def customAgentBrainV2Fields : List String :=
  ["thought", "summary"]

/-- The shape of a pydantic `AgentOutput` model as far as this repository
manipulates it: which fields `current_state` is validated against, and the
element type of the `action` list. -/
structure AgentOutputSchema where
  currentStateFields : List String
  actionElemType : String
deriving DecidableEq, Repr

/-- `CustomAgentOutput` (lines 31–40): `current_state : CustomAgentBrain`,
`action : list[ActionModel]`. -/
def customAgentOutputSchema : AgentOutputSchema :=
  ⟨customAgentBrainFields, "ActionModel"⟩

/-- `CustomAgentOutputV2` (lines 76–85): `current_state : CustomAgentBrainV2`,
`action : list[ActionModel]`. -/
def customAgentOutputV2Schema : AgentOutputSchema :=
  ⟨customAgentBrainV2Fields, "ActionModel"⟩

/-- `pydantic.create_model(name, __base__=base, action=(list[custom], ...))`:
the created model inherits every field of `base` and overrides `action`'s
element type. -/
def createModel (base : AgentOutputSchema) (customActions : String) : AgentOutputSchema :=
  { base with actionElemType := customActions }

/-- `CustomAgentOutput.type_with_custom_actions` (lines 42–55):
`create_model` with `__base__=CustomAgentOutput`. -/
def typeWithCustomActions (customActions : String) : AgentOutputSchema :=
  createModel customAgentOutputSchema customActions

/-- `CustomAgentOutputV2.type_with_custom_actions` (lines 87–100): the source
passes `__base__=CustomAgentOutput` — the V1 class, not `CustomAgentOutputV2`
— so the created model inherits `current_state : CustomAgentBrain`. -/
def typeWithCustomActionsV2 (customActions : String) : AgentOutputSchema :=
  createModel customAgentOutputSchema customActions

/-- A JSON-shaped model completion, as validated by pydantic. -/
inductive Json where
  | jstr (s : String)
  | jnum (n : Int)
  | jarr (xs : List Json)
  | jobj (fields : List (String × Json))

/-- Key lookup in a JSON object's field list (first match). -/
def lookupField (key : String) : List (String × Json) → Option Json
  | [] => none
  | (k, v) :: rest => if k = key then some v else lookupField key rest

/-- Key lookup on a JSON value: objects only. -/
def Json.lookup (j : Json) (key : String) : Option Json :=
  match j with
  | .jobj fields => lookupField key fields
  | _ => none

/-- The decoded `current_state` plus raw action entries of a completion. -/
structure DecisionRecord where
  currentState : List (String × String)
  action : List Json

/-- Pydantic validation of the `current_state` sub-object against the active
variant's required `str` fields: each must be present and a string; extra
keys are ignored. -/
def extractStateFields : List String → Json → Option (List (String × String))
  | [], _ => some []
  | f :: fs, cs =>
    match cs.lookup f with
    | some (.jstr v) => (extractStateFields fs cs).map (fun rest => (f, v) :: rest)
    | _ => none

/-- Pydantic `model_validate` for `CustomAgentOutput` / `CustomAgentOutputV2`
(`src/agent/custom_views.py` lines 31–40 / 76–85): the top-level keys
`current_state` and `action` are required, `current_state` must carry every
field of the active variant's brain model, and `action` must be a list.
Validation of each action entry against the (externally registered,
dynamically created) action model is not constrained by these class
declarations and is modelled as accepting; `Except.error` models pydantic's
`ValidationError`. -/
def model_validate (requiredFields : List String) (raw : Json) :
    Except String DecisionRecord :=
  match raw.lookup "current_state", raw.lookup "action" with
  | some cs, some (.jarr acts) =>
    match extractStateFields requiredFields cs with
    | some kvs => .ok ⟨kvs, acts⟩
    | none => .error "current_state does not match the variant field set"
  | some _, some _ => .error "action is not a list"
  | _, _ => .error "missing current_state or action"

/-- `src/controller/custom_controller.py` lines 26–29: the clipboard-copy
action (the `pyperclip.copy` side effect is external and not modelled; the
function's return value is what the claim is about). -/
def copy_to_clipboard (text : Str) : ActionResult :=
  { extractedContent := some text }

/-- `src/controller/custom_controller.py` lines 40–55: page-content
extraction.  `content` stands for the `MainContentExtractor.extract(...)`
output fetched from the external browser collaborator. -/
def extract_content (content : Str) : ActionResult :=
  { extractedContent := some (str "📄  Extracted page content\n: " ++ content ++ str "\n"),
    includeInMemory := true }

/-! Helper lemmas shared by several claims. -/

theorem infix_left (a : Str) {p m : Str} (h : p <:+: m) : p <:+: a ++ m := by
  obtain ⟨s, t, rfl⟩ := h
  exact ⟨a ++ s, t, by simp⟩

theorem infix_right (b : Str) {p m : Str} (h : p <:+: m) : p <:+: m ++ b := by
  obtain ⟨s, t, rfl⟩ := h
  exact ⟨s, t ++ b, by simp⟩

theorem wrapElementsText_nil (pa pb : Option Int) :
    wrapElementsText [] pa pb = str "empty page" := by
  simp [wrapElementsText]

theorem wrapElementsText_ne_nil (raw : Str) (pa pb : Option Int) :
    wrapElementsText raw pa pb ≠ [] := by
  unfold wrapElementsText
  by_cases h : raw = []
  · subst h
    simp only [ne_eq, not_true_eq_false, if_false]
    decide
  · simp only [ne_eq, h, not_false_eq_true, if_true]
    split
    · intro hc
      exact absurd (List.append_eq_nil.mp hc).2 (by decide)
    · intro hc
      exact absurd (List.append_eq_nil.mp hc).2 (by decide)

theorem customAgent_ok_shape {state : BrowserState} {actions : Option (List ActionModel)}
    {result : Option (List ActionResult)} {maxErr : Nat} {si : CustomAgentStepInfo}
    {msg : HumanMessage}
    (h : customAgentGetUserMessage state actions result maxErr (some si) = .ok msg) :
    ∃ block, v1Block actions result maxErr si = .ok block ∧
      messageText msg = v1StateDescription state si ++ block := by
  simp only [customAgentGetUserMessage] at h
  split at h
  · exact absurd h (by simp)
  · rename_i block hb
    split at h <;> exact ⟨block, hb, by cases h; rfl⟩

theorem monitor_ok_shape {state : BrowserState} {actions : Option (List ActionModel)}
    {result : Option (List ActionResult)} {maxErr : Nat} {si : CustomAgentStepInfo}
    {msg : HumanMessage}
    (h : monitorAgentGetUserMessage state actions result maxErr (some si) = .ok msg) :
    ∃ block, monitorBlock actions result maxErr si = .ok block ∧
      messageText msg =
        str "Current step: " ++ str (toString si.stepNumber) ++ str "/" ++
        str (toString si.maxSteps) ++ str "1. Task: " ++ si.task ++ str " \n" ++
        block ++
        str "3. Interactive elements in Step " ++ str (toString si.stepNumber) ++
        str ": \n" ++
        wrapElementsText state.elementsText state.pixelsAbove state.pixelsBelow ++
        str "\n" := by
  simp only [monitorAgentGetUserMessage] at h
  split at h
  · exact absurd h (by simp)
  · rename_i block hb
    split at h
    · exact absurd h (by simp)
    · exact ⟨block, hb, by cases h; rfl⟩

theorem v2_ok_shape {state : BrowserState} {actions : Option (List ActionModel)}
    {result : Option (List ActionResult)} {maxErr : Nat} {si : CustomAgentStepInfoV2}
    {msg : HumanMessage}
    (h : customAgentV2GetUserMessage state actions result maxErr (some si) = .ok msg) :
    ∃ block, v2Block actions result maxErr si = .ok block ∧
      messageText msg = v2StateDescription state si ++ block := by
  simp only [customAgentV2GetUserMessage] at h
  split at h
  · exact absurd h (by simp)
  · rename_i block hb
    split at h <;> exact ⟨block, hb, by cases h; rfl⟩

/-- C1 counterexample: with a non-empty listing and `pixels_above = 50`, the
rendered text is the hint `"... 50 pixels above - scroll or extract content
to see more ..."`, and the claim's quoted hint text
`"pixels above — scroll or extract to see more"` (which drops the word
"content") occurs nowhere in it. -/
theorem elements_scroll_hint_counterexample :
    wrapElementsText (str "1[:]<button>ok</button>") (some 50) (some 0) =
      str "... 50 pixels above - scroll or extract content to see more ...\n1[:]<button>ok</button>\n[End of page]"
    ∧ ¬ (str "pixels above — scroll or extract to see more" <:+:
        wrapElementsText (str "1[:]<button>ok</button>") (some 50) (some 0)) := by
  constructor
  · decide
  · rw [← containsSeg_iff_infix]
    decide

/-- C1 (amended): for every snapshot with a non-empty element listing, when
neither scroll offset is positive the rendered text is wrapped exactly with
`[Start of page]` before and `[End of page]` after; a positive
`pixels_above` (resp. `pixels_below`) instead prefixes (resp. suffixes) the
pixel-count scroll hint `"... N pixels above - scroll or extract content to
see more ..."` exactly as the source writes it. -/
theorem elements_fencing (raw : Str) (pa pb : Option Int) (hraw : raw ≠ []) :
    (pa.getD 0 ≤ 0 → pb.getD 0 ≤ 0 →
      wrapElementsText raw pa pb = str "[Start of page]\n" ++ raw ++ str "\n[End of page]")
    ∧ (∀ n : Int, pa = some n → 0 < n → ∃ rest,
        wrapElementsText raw pa pb =
          str "... " ++ str (toString n) ++
            str " pixels above - scroll or extract content to see more ...\n" ++ rest)
    ∧ (∀ n : Int, pb = some n → 0 < n → ∃ front,
        wrapElementsText raw pa pb =
          front ++ str "\n... " ++ str (toString n) ++
            str " pixels below - scroll or extract content to see more ...") := by
  refine ⟨?_, ?_, ?_⟩
  · intro ha hb
    unfold wrapElementsText
    simp only [ne_eq, hraw, not_false_eq_true, if_true,
      if_neg (by omega : ¬ 0 < pa.getD 0), if_neg (by omega : ¬ 0 < pb.getD 0)]
  · rintro n rfl hn
    unfold wrapElementsText
    simp only [Option.getD_some, ne_eq, hraw, not_false_eq_true, if_true, if_pos hn]
    split
    · exact ⟨raw ++ str "\n... " ++ str (toString (pb.getD 0)) ++
        str " pixels below - scroll or extract content to see more ...", by simp⟩
    · exact ⟨raw ++ str "\n[End of page]", by simp⟩
  · rintro n rfl hn
    unfold wrapElementsText
    simp only [Option.getD_some, ne_eq, hraw, not_false_eq_true, if_true, if_pos hn]
    split
    · exact ⟨str "... " ++ str (toString (pa.getD 0)) ++
        str " pixels above - scroll or extract content to see more ...\n" ++ raw, by simp⟩
    · exact ⟨str "[Start of page]\n" ++ raw, by simp⟩

/-- Witness for `elements_fencing` at concrete inputs: the zero-offset
fencing case and the positive `pixels_above` hint case. -/
theorem elements_fencing_witness :
    (wrapElementsText (str "x") (some 0) none =
      str "[Start of page]\n" ++ str "x" ++ str "\n[End of page]")
    ∧ (∃ rest, wrapElementsText (str "x") (some 2) (some 0) =
        str "... " ++ str (toString (2 : Int)) ++
          str " pixels above - scroll or extract content to see more ...\n" ++ rest) :=
  ⟨(elements_fencing (str "x") (some 0) none (by decide)).1 (by decide) (by decide),
   (elements_fencing (str "x") (some 2) (some 0) (by decide)).2.1 2 rfl (by decide)⟩

/-- C2: an interactive-element listing that serializes to the empty string
renders as the literal `"empty page"`, the rendered field is never the empty
string, and in every prompt variant (agent V1, agent V2, monitor) the
assembled observation message contains `"empty page"`. -/
theorem empty_page_marker :
    (∀ (pa pb : Option Int), wrapElementsText [] pa pb = str "empty page")
    ∧ (∀ (raw : Str) (pa pb : Option Int), wrapElementsText raw pa pb ≠ [])
    ∧ (∀ (state : BrowserState) (actions : Option (List ActionModel))
        (result : Option (List ActionResult)) (maxErr : Nat)
        (si : CustomAgentStepInfo) (msg : HumanMessage),
        state.elementsText = [] →
        customAgentGetUserMessage state actions result maxErr (some si) = .ok msg →
        str "empty page" <:+: messageText msg)
    ∧ (∀ (state : BrowserState) (actions : Option (List ActionModel))
        (result : Option (List ActionResult)) (maxErr : Nat)
        (si : CustomAgentStepInfo) (msg : HumanMessage),
        state.elementsText = [] →
        monitorAgentGetUserMessage state actions result maxErr (some si) = .ok msg →
        str "empty page" <:+: messageText msg)
    ∧ (∀ (state : BrowserState) (actions : Option (List ActionModel))
        (result : Option (List ActionResult)) (maxErr : Nat)
        (si : CustomAgentStepInfoV2) (msg : HumanMessage),
        state.elementsText = [] →
        customAgentV2GetUserMessage state actions result maxErr (some si) = .ok msg →
        str "empty page" <:+: messageText msg) := by
  refine ⟨fun pa pb => wrapElementsText_nil pa pb, wrapElementsText_ne_nil, ?_, ?_, ?_⟩
  · intro state actions result maxErr si msg he h
    obtain ⟨block, -, htext⟩ := customAgent_ok_shape h
    rw [htext]
    unfold v1StateDescription
    rw [he, wrapElementsText_nil]
    apply infix_right
    apply infix_right
    apply infix_left
    exact List.infix_refl _
  · intro state actions result maxErr si msg he h
    obtain ⟨block, -, htext⟩ := monitor_ok_shape h
    rw [htext, he, wrapElementsText_nil]
    apply infix_right
    apply infix_left
    exact List.infix_refl _
  · intro state actions result maxErr si msg he h
    obtain ⟨block, -, htext⟩ := v2_ok_shape h
    rw [htext]
    unfold v2StateDescription
    rw [he, wrapElementsText_nil]
    apply infix_right
    apply infix_right
    apply infix_left
    exact List.infix_refl _

/-- Witness for `empty_page_marker`: a concrete empty-listing snapshot run
through the V1 agent prompt. -/
theorem empty_page_marker_witness :
    ∃ msg, customAgentGetUserMessage ⟨str "u", str "[]", [], none, none, none⟩
        none none 400 (some ⟨1, 10, str "t", [], [], [], []⟩) = .ok msg ∧
      str "empty page" <:+: messageText msg :=
  ⟨_, rfl, empty_page_marker.2.2.1 ⟨str "u", str "[]", [], none, none, none⟩
      none none 400 ⟨1, 10, str "t", [], [], [], []⟩ _ rfl rfl⟩

/-- C3: `CustomAgentOutput.type_with_custom_actions` changes only the action
element type, but `CustomAgentOutputV2.type_with_custom_actions` passes
`__base__=CustomAgentOutput`, so the extended "V2" model validates
`current_state` against the full six-field `CustomAgentBrain` shape — not
against `CustomAgentBrainV2`'s `{thought, summary}` as its own class
declaration (and return annotation `Type[CustomAgentOutputV2]`) requires. -/
theorem v2_type_with_custom_actions_bug :
    (∀ c : String, (typeWithCustomActions c).currentStateFields =
        customAgentOutputSchema.currentStateFields
      ∧ (typeWithCustomActions c).actionElemType = c)
    ∧ (typeWithCustomActionsV2 "MyActions").currentStateFields = customAgentBrainFields
    ∧ (typeWithCustomActionsV2 "MyActions").actionElemType = "MyActions"
    ∧ customAgentBrainFields ≠ customAgentBrainV2Fields
    ∧ (typeWithCustomActionsV2 "MyActions").currentStateFields ≠
        customAgentOutputV2Schema.currentStateFields :=
  ⟨fun _ => ⟨rfl, rfl⟩, rfl, rfl, by decide, by decide⟩

theorem extractStateFields_missing {fields : List String} {f : String}
    (hf : f ∈ fields) {cs : Json} (h : cs.lookup f = none) :
    extractStateFields fields cs = none := by
  induction fields with
  | nil => cases hf
  | cons g gs ih =>
    rcases List.mem_cons.mp hf with rfl | hf'
    · unfold extractStateFields
      rw [h]
    · unfold extractStateFields
      cases hl : cs.lookup g with
      | none => rfl
      | some v =>
        cases v with
        | jstr s => rw [ih hf']; rfl
        | jnum n => rfl
        | jarr xs => rfl
        | jobj fs => rfl

theorem extractStateFields_total {fields : List String} {cs : Json}
    (h : ∀ f ∈ fields, ∃ v, cs.lookup f = some (.jstr v)) :
    ∃ kvs, extractStateFields fields cs = some kvs := by
  induction fields with
  | nil => exact ⟨[], rfl⟩
  | cons g gs ih =>
    obtain ⟨v, hv⟩ := h g (by simp)
    obtain ⟨kvs, hk⟩ := ih fun f hf => h f (by simp [hf])
    exact ⟨(g, v) :: kvs, by unfold extractStateFields; rw [hv, hk]; rfl⟩

/-- C4: validating a model completion fails when the top-level `action` key
is missing, when `current_state` is missing, or when `current_state` lacks a
field required by the active variant (`CustomAgentBrain`'s six fields, or
`CustomAgentBrainV2`'s `{thought, summary}`); a completion that carries all
required keys validates successfully. -/
theorem model_validate_schema :
    (∀ (fields : List String) (raw : Json), raw.lookup "action" = none →
      ∃ e, model_validate fields raw = .error e)
    ∧ (∀ (fields : List String) (raw : Json), raw.lookup "current_state" = none →
      ∃ e, model_validate fields raw = .error e)
    ∧ (∀ (fields : List String) (raw cs : Json) (f : String),
        (fields = customAgentBrainFields ∨ fields = customAgentBrainV2Fields) →
        f ∈ fields → raw.lookup "current_state" = some cs → cs.lookup f = none →
        ∃ e, model_validate fields raw = .error e)
    ∧ (∀ (fields : List String) (raw cs : Json) (acts : List Json),
        raw.lookup "current_state" = some cs →
        raw.lookup "action" = some (.jarr acts) →
        (∀ f ∈ fields, ∃ v, cs.lookup f = some (.jstr v)) →
        ∃ rec, model_validate fields raw = .ok rec) := by
  refine ⟨?_, ?_, ?_, ?_⟩
  · intro fields raw h
    unfold model_validate
    rw [h]
    cases raw.lookup "current_state" <;> exact ⟨_, rfl⟩
  · intro fields raw h
    unfold model_validate
    rw [h]
    cases ha : raw.lookup "action" with
    | none => exact ⟨_, rfl⟩
    | some v => cases v <;> exact ⟨_, rfl⟩
  · intro fields raw cs f _ hf hcs hnone
    unfold model_validate
    rw [hcs]
    cases ha : raw.lookup "action" with
    | none => exact ⟨_, rfl⟩
    | some v =>
      cases v with
      | jarr acts =>
        dsimp only
        rw [extractStateFields_missing hf hnone]
        exact ⟨_, rfl⟩
      | jstr s => exact ⟨_, rfl⟩
      | jnum n => exact ⟨_, rfl⟩
      | jobj fs => exact ⟨_, rfl⟩
  · intro fields raw cs acts hcs ha hall
    obtain ⟨kvs, hk⟩ := extractStateFields_total hall
    unfold model_validate
    rw [hcs, ha]
    dsimp only
    rw [hk]
    exact ⟨_, rfl⟩

/-- Witness for `model_validate_schema`: a V2 completion missing `action`
fails; the same completion with an `action` list validates. -/
theorem model_validate_schema_witness :
    (∃ e, model_validate customAgentBrainV2Fields
      (Json.jobj [("current_state",
        Json.jobj [("thought", Json.jstr "t"), ("summary", Json.jstr "s")])]) = .error e)
    ∧ (∃ rec, model_validate customAgentBrainV2Fields
      (Json.jobj [("current_state",
        Json.jobj [("thought", Json.jstr "t"), ("summary", Json.jstr "s")]),
        ("action", Json.jarr [])]) = .ok rec) :=
  ⟨model_validate_schema.1 customAgentBrainV2Fields _ rfl,
   model_validate_schema.2.2.2 customAgentBrainV2Fields _ _ [] rfl rfl
     (fun f hf => by
        rcases List.mem_cons.mp hf with rfl | hf'
        · exact ⟨"t", rfl⟩
        · rcases List.mem_cons.mp hf' with rfl | hf''
          · exact ⟨"s", rfl⟩
          · cases hf'')⟩

/-- C5 counterexample: with `max_error_length = 0` (an admissible `int`
configuration) and error `"x"` of length `1 > 0`, CPython's `error[-0:]`
slice is the *whole* string, so the rendered line keeps `"x"` — not the
claimed "exactly the last `max_error_length` characters" (which would be
the empty string). -/
theorem error_truncation_counterexample :
    resultLine 0 1 0 ⟨str "a"⟩ ⟨none, some (str "x"), true⟩ =
      str "Previous action 1/1: a\nError of previous action 1/1: ...x\n"
    ∧ resultLine 0 1 0 ⟨str "a"⟩ ⟨none, some (str "x"), true⟩ ≠
      str "Previous action 1/1: a\nError of previous action 1/1: ...\n" := by
  constructor
  · decide
  · decide

/-- C5 (amended): for every `max_error_length ≥ 1` (the default 400
included) and every error of length greater than `max_error_length`, the
rendered error line carries `"..."` followed by exactly the last
`max_error_length` characters of the error — the tail, not the head. -/
theorem error_truncation_tail (maxErr n i : Nat) (a : ActionModel) (e : Str)
    (hpos : 1 ≤ maxErr) (hlen : maxErr < e.length) :
    ∃ (pre hd t : Str),
      resultLine maxErr n i a ⟨none, some e, true⟩ = pre ++ str "..." ++ t ++ str "\n"
      ∧ e = hd ++ t ∧ t.length = maxErr := by
  have hne : e ≠ [] := by
    rintro rfl
    simp at hlen
  refine ⟨str "Previous action " ++ str (toString (i + 1)) ++ str "/" ++
      str (toString n) ++ str ": " ++ a.modelDumpJson ++ str "\n" ++
      str "Error of previous action " ++ str (toString (i + 1)) ++ str "/" ++
      str (toString n) ++ str ": ",
    e.take (e.length - maxErr), e.drop (e.length - maxErr), ?_, ?_, ?_⟩
  · unfold resultLine
    have htc : truthy (none : Option Str) = false := rfl
    have hte : truthy (some e) = true := by
      simp [truthy, List.isEmpty_iff, hne]
    simp only [htc, hte, if_true, if_false, Bool.false_eq_true, Option.getD_some]
    have hsl : pySliceLast maxErr e = e.drop (e.length - maxErr) := by
      unfold pySliceLast
      rw [if_neg (by omega)]
    rw [hsl]
    have hd : str ": ..." = str ": " ++ str "..." := by decide
    rw [hd]
    simp [List.append_assoc]
  · exact (List.take_append_drop _ e).symm
  · rw [List.length_drop]
    omega

/-- Witness for `error_truncation_tail` at the default `max_error_length`
of 400 with a 401-character error. -/
theorem error_truncation_tail_witness :
    ∃ (pre hd t : Str),
      resultLine 400 1 0 ⟨str "a"⟩ ⟨none, some (List.replicate 401 'x'), true⟩ =
        pre ++ str "..." ++ t ++ str "\n"
      ∧ List.replicate 401 'x' = hd ++ t ∧ t.length = 400 :=
  error_truncation_tail 400 1 0 ⟨str "a"⟩ (List.replicate 401 'x') (by omega)
    (by rw [List.length_replicate]; omega)

theorem prevGo_spec (lineF : Nat → ActionModel → ActionResult → Str)
    (as : List ActionModel) :
    ∀ (rs : List ActionResult) (i : Nat), i + rs.length ≤ as.length →
    ∃ contribs : List Str, contribs.length = rs.length ∧
      prevGo lineF as i rs = .ok contribs.flatten ∧
      ∀ j, j < rs.length → ∃ a r, as.get? (i + j) = some a ∧ rs.get? j = some r ∧
        contribs.get? j = some (lineF (i + j) a r) := by
  intro rs
  induction rs with
  | nil =>
    intro i _
    exact ⟨[], rfl, rfl, fun j hj => absurd hj (by simp)⟩
  | cons r rest ih =>
    intro i hlen
    have hi : i < as.length := by
      simp only [List.length_cons] at hlen
      omega
    obtain ⟨a, ha⟩ : ∃ a, as.get? i = some a := ⟨as.get ⟨i, hi⟩, List.get?_eq_get hi⟩
    obtain ⟨contribs, hcl, hgo, hidx⟩ := ih (i + 1) (by simp at hlen ⊢; omega)
    refine ⟨lineF i a r :: contribs, by simp [hcl], ?_, ?_⟩
    · unfold prevGo
      rw [ha, hgo]
      rfl
    · intro j hj
      cases j with
      | zero => exact ⟨a, r, by simpa using ha, rfl, rfl⟩
      | succ j' =>
        obtain ⟨a', r', ha', hr', hc'⟩ := hidx j' (by simp at hj; omega)
        have harith : i + 1 + j' = i + (j' + 1) := by omega
        exact ⟨a', r', by rw [← harith]; exact ha', by simpa using hr',
          by rw [← harith]; simpa using hc'⟩

theorem prevGo_oob (lineF : Nat → ActionModel → ActionResult → Str)
    (as : List ActionModel) :
    ∀ (rs : List ActionResult) (i : Nat), rs ≠ [] → as.length < i + rs.length →
    prevGo lineF as i rs = .error .indexError := by
  intro rs
  induction rs with
  | nil => intro i h _; exact absurd rfl h
  | cons r rest ih =>
    intro i _ hlen
    unfold prevGo
    cases hg : as.get? i with
    | none => rfl
    | some a =>
      have hi : i < as.length := List.get?_eq_some.mp hg |>.1
      cases rest with
      | nil =>
        simp only [List.length_cons, List.length_nil] at hlen
        omega
      | cons r2 rest2 =>
        rw [ih (i + 1) (by simp) (by simp at hlen ⊢; omega)]

theorem customAgent_ok_of_block (state : BrowserState) {actions : Option (List ActionModel)}
    {result : Option (List ActionResult)} {maxErr : Nat} {si : CustomAgentStepInfo}
    {block : Str} (hb : v1Block actions result maxErr si = .ok block) :
    ∃ msg, customAgentGetUserMessage state actions result maxErr (some si) = .ok msg
      ∧ messageText msg = v1StateDescription state si ++ block := by
  simp only [customAgentGetUserMessage, hb]
  by_cases hsc : truthy state.screenshot = true
  · rw [if_pos hsc]
    exact ⟨_, rfl, rfl⟩
  · rw [if_neg hsc]
    exact ⟨_, rfl, rfl⟩

theorem resultLine_shape (maxErr n i : Nat) (a : ActionModel) (r : ActionResult) :
    ∃ rest, resultLine maxErr n i a r =
      (str "Previous action " ++ str (toString (i + 1)) ++ str "/" ++ str (toString n) ++
        str ": " ++ a.modelDumpJson ++ str "\n") ++ rest
      ∧ (r.includeInMemory = false → rest = []) := by
  unfold resultLine
  cases hm : r.includeInMemory with
  | false =>
    exact ⟨[], by simp, fun _ => rfl⟩
  | true =>
    by_cases hc : truthy r.extractedContent <;> by_cases he : truthy r.error <;>
        simp only [hc, he, if_true, if_false, Bool.false_eq_true]
    · exact ⟨str "Result of previous action " ++ str (toString (i + 1)) ++ str "/" ++
        str (toString n) ++ str ": " ++ r.extractedContent.getD [] ++ str "\n" ++
        str "Error of previous action " ++ str (toString (i + 1)) ++ str "/" ++
        str (toString n) ++ str ": ..." ++ pySliceLast maxErr (r.error.getD []) ++ str "\n",
        by simp [List.append_assoc], fun h => nomatch h⟩
    · exact ⟨str "Result of previous action " ++ str (toString (i + 1)) ++ str "/" ++
        str (toString n) ++ str ": " ++ r.extractedContent.getD [] ++ str "\n",
        by simp [List.append_assoc], fun h => nomatch h⟩
    · exact ⟨str "Error of previous action " ++ str (toString (i + 1)) ++ str "/" ++
        str (toString n) ++ str ": ..." ++ pySliceLast maxErr (r.error.getD []) ++ str "\n",
        by simp [List.append_assoc], fun h => nomatch h⟩
    · exact ⟨[], by simp, fun h => nomatch h⟩

/-- C6 counterexample: with a non-empty results list but no actions list
(`self.actions` is `None`, so `if self.actions and self.result` is falsy),
the assembled message contains no per-result line at all, contradicting the
claim's trigger "whenever the prior results list is non-empty". -/
theorem prev_actions_counterexample :
    ∃ msg, customAgentGetUserMessage ⟨str "u", str "[]", str "el", none, none, none⟩
        none (some [⟨none, none, false⟩]) 400 (some ⟨2, 10, str "t", [], [], [], []⟩) = .ok msg
      ∧ ¬ (str "Previous action 1/1:" <:+: messageText msg) := by
  refine ⟨_, rfl, ?_⟩
  rw [← containsSeg_iff_infix]
  decide

/-- C6 (amended): whenever *both* the prior actions list and the prior
results list are provided and non-empty (and the results list is no longer
than the actions list, see C9), the assembled message appends one
contribution per result, in original order, 1-indexed, each opening with
the serialized form of the corresponding action; the extracted-content /
truncated-error lines follow only for results whose `include_in_memory` is
true, and a result with `include_in_memory = false` contributes exactly its
action line. -/
theorem prev_actions_block (state : BrowserState) (si : CustomAgentStepInfo)
    (as : List ActionModel) (rs : List ActionResult) (maxErr : Nat)
    (ha : as ≠ []) (hr : rs ≠ []) (hlen : rs.length ≤ as.length) :
    ∃ (msg : HumanMessage) (contribs : List Str),
      customAgentGetUserMessage state (some as) (some rs) maxErr (some si) = .ok msg
      ∧ contribs.length = rs.length
      ∧ (∃ pre, messageText msg = pre ++ contribs.flatten)
      ∧ (∀ j, j < rs.length → ∃ (a : ActionModel) (r : ActionResult) (rest : Str),
          as.get? j = some a ∧ rs.get? j = some r ∧
          contribs.get? j = some ((str "Previous action " ++ str (toString (j + 1)) ++
            str "/" ++ str (toString rs.length) ++ str ": " ++ a.modelDumpJson ++
            str "\n") ++ rest)
          ∧ (r.includeInMemory = false → rest = [])) := by
  obtain ⟨contribs, hcl, hgo, hidx⟩ :=
    prevGo_spec (resultLine maxErr rs.length) as rs 0 (by omega)
  have hlines : prevActionsLines maxErr as rs = .ok contribs.flatten := hgo
  have hblock : v1Block (some as) (some rs) maxErr si =
      .ok (str "\n **Previous Actions** \nPrevious step: " ++
        str (toString (si.stepNumber - 1)) ++ str "/" ++
        str (toString si.maxSteps) ++ str " \n" ++ contribs.flatten) := by
    unfold v1Block
    dsimp only
    rw [if_neg (by simp [List.isEmpty_iff, ha, hr]), hlines]
  have hmain : ∀ j, j < rs.length → ∃ (a : ActionModel) (r : ActionResult) (rest : Str),
      as.get? j = some a ∧ rs.get? j = some r ∧
      contribs.get? j = some ((str "Previous action " ++ str (toString (j + 1)) ++
        str "/" ++ str (toString rs.length) ++ str ": " ++ a.modelDumpJson ++
        str "\n") ++ rest)
      ∧ (r.includeInMemory = false → rest = []) := by
    intro j hj
    obtain ⟨a, r, hga, hgr, hgc⟩ := hidx j hj
    obtain ⟨rest, hshape, hflag⟩ := resultLine_shape maxErr rs.length j a r
    rw [Nat.zero_add] at hga hgc
    rw [hshape] at hgc
    exact ⟨a, r, rest, hga, hgr, hgc, hflag⟩
  obtain ⟨msg, hmsg, htext⟩ := customAgent_ok_of_block state hblock
  refine ⟨msg, contribs, hmsg, hcl, ?_, hmain⟩
  exact ⟨v1StateDescription state si ++
    (str "\n **Previous Actions** \nPrevious step: " ++
      str (toString (si.stepNumber - 1)) ++ str "/" ++
      str (toString si.maxSteps) ++ str " \n"),
    by rw [htext]; simp [List.append_assoc]⟩

/-- Witness for `prev_actions_block`: one action, one `include_in_memory =
false` result. -/
theorem prev_actions_block_witness :
    ∃ (msg : HumanMessage) (contribs : List Str),
      customAgentGetUserMessage ⟨str "u", str "[]", str "el", none, none, none⟩
        (some [⟨str "a"⟩]) (some [⟨none, none, false⟩]) 400
        (some ⟨2, 10, str "t", [], [], [], []⟩) = .ok msg
      ∧ contribs.length = [(⟨none, none, false⟩ : ActionResult)].length
      ∧ (∃ pre, messageText msg = pre ++ contribs.flatten)
      ∧ (∀ j, j < [(⟨none, none, false⟩ : ActionResult)].length →
          ∃ (a : ActionModel) (r : ActionResult) (rest : Str),
          [(⟨str "a"⟩ : ActionModel)].get? j = some a ∧
          [(⟨none, none, false⟩ : ActionResult)].get? j = some r ∧
          contribs.get? j = some ((str "Previous action " ++ str (toString (j + 1)) ++
            str "/" ++ str (toString [(⟨none, none, false⟩ : ActionResult)].length) ++
            str ": " ++ a.modelDumpJson ++ str "\n") ++ rest)
          ∧ (r.includeInMemory = false → rest = [])) :=
  prev_actions_block ⟨str "u", str "[]", str "el", none, none, none⟩
    ⟨2, 10, str "t", [], [], [], []⟩ [⟨str "a"⟩] [⟨none, none, false⟩] 400
    (by simp) (by simp) (by simp)

/-- C7: the V1 and V2 agent prompts return a multimodal message (text part
plus `data:image/png;base64,…` image part) exactly when the snapshot's
screenshot is truthy (present and non-empty), and a text-only message
otherwise; the monitor prompt, however, hits the unbound name `state` in
its screenshot branch (`custom_prompts.py` line 339), raising `NameError`
for every snapshot with a truthy screenshot — every monitor message that is
produced at all is text-only. -/
theorem screenshot_multimodal :
    (∀ (state : BrowserState) (actions : Option (List ActionModel))
        (result : Option (List ActionResult)) (maxErr : Nat)
        (si : CustomAgentStepInfo) (msg : HumanMessage),
        customAgentGetUserMessage state actions result maxErr (some si) = .ok msg →
        (truthy state.screenshot = false → ∃ t, msg = .textOnly t)
        ∧ (truthy state.screenshot = true →
            ∃ t, msg = .textWithImage t
              (str "data:image/png;base64," ++ state.screenshot.getD [])))
    ∧ (∀ (state : BrowserState) (actions : Option (List ActionModel))
        (result : Option (List ActionResult)) (maxErr : Nat)
        (si : CustomAgentStepInfoV2) (msg : HumanMessage),
        customAgentV2GetUserMessage state actions result maxErr (some si) = .ok msg →
        (truthy state.screenshot = false → ∃ t, msg = .textOnly t)
        ∧ (truthy state.screenshot = true →
            ∃ t, msg = .textWithImage t
              (str "data:image/png;base64," ++ state.screenshot.getD [])))
    ∧ (∀ (state : BrowserState) (actions : Option (List ActionModel))
        (result : Option (List ActionResult)) (maxErr : Nat)
        (si : CustomAgentStepInfo) (block : Str),
        truthy state.screenshot = true →
        monitorBlock actions result maxErr si = .ok block →
        monitorAgentGetUserMessage state actions result maxErr (some si) =
          .error .nameError)
    ∧ (∀ (state : BrowserState) (actions : Option (List ActionModel))
        (result : Option (List ActionResult)) (maxErr : Nat)
        (si : CustomAgentStepInfo) (msg : HumanMessage),
        monitorAgentGetUserMessage state actions result maxErr (some si) = .ok msg →
        ∃ t, msg = .textOnly t) := by
  refine ⟨?_, ?_, ?_, ?_⟩
  · intro state actions result maxErr si msg h
    simp only [customAgentGetUserMessage] at h
    split at h
    · exact absurd h (by simp)
    · constructor
      · intro hf
        rw [if_neg (by simp [hf])] at h
        cases h
        exact ⟨_, rfl⟩
      · intro ht
        rw [if_pos ht] at h
        cases h
        exact ⟨_, rfl⟩
  · intro state actions result maxErr si msg h
    simp only [customAgentV2GetUserMessage] at h
    split at h
    · exact absurd h (by simp)
    · constructor
      · intro hf
        rw [if_neg (by simp [hf])] at h
        cases h
        exact ⟨_, rfl⟩
      · intro ht
        rw [if_pos ht] at h
        cases h
        exact ⟨_, rfl⟩
  · intro state actions result maxErr si block ht hb
    simp only [monitorAgentGetUserMessage, hb]
    rw [if_pos ht]
  · intro state actions result maxErr si msg h
    simp only [monitorAgentGetUserMessage] at h
    split at h
    · exact absurd h (by simp)
    · split at h
      · exact absurd h (by simp)
      · cases h
        exact ⟨_, rfl⟩

/-- Witness for `screenshot_multimodal`: a non-empty screenshot makes the
monitor prompt raise `NameError` while the V1 agent prompt returns the
multimodal message for the same snapshot; an *empty* screenshot string is
falsy, so the monitor returns its normal text-only message. -/
theorem screenshot_multimodal_witness :
    monitorAgentGetUserMessage ⟨str "u", str "[]", str "el", none, none, some (str "IMG")⟩
      none none 400 (some ⟨1, 5, str "t", [], [], [], []⟩) = .error .nameError
    ∧ (∃ msg t, customAgentGetUserMessage
        ⟨str "u", str "[]", str "el", none, none, some (str "IMG")⟩
        none none 400 (some ⟨1, 5, str "t", [], [], [], []⟩) = .ok msg
      ∧ msg = .textWithImage t (str "data:image/png;base64," ++
          (some (str "IMG") : Option Str).getD []))
    ∧ (∃ msg t, monitorAgentGetUserMessage
        ⟨str "u", str "[]", str "el", none, none, some []⟩
        none none 400 (some ⟨1, 5, str "t", [], [], [], []⟩) = .ok msg
      ∧ msg = .textOnly t) :=
  ⟨screenshot_multimodal.2.2.1 ⟨str "u", str "[]", str "el", none, none, some (str "IMG")⟩
      none none 400 ⟨1, 5, str "t", [], [], [], []⟩
      (str "2. Previous Actions: No previous actions. \n") (by decide) rfl,
   ⟨_, _, rfl, rfl⟩,
   ⟨_, _, rfl, rfl⟩⟩

/-- C8 counterexample: a step with an *empty* memory string still renders
the numbered field label `3. Memory:` in the assembled message, so an empty
StepState field does appear as a numbered field, contrary to the claim. -/
theorem numbered_fields_counterexample :
    (⟨1, 10, str "t", [], [], [], []⟩ : CustomAgentStepInfo).memory = []
    ∧ ∃ msg, customAgentGetUserMessage ⟨str "u", str "[]", str "el", none, none, none⟩
        none none 400 (some ⟨1, 10, str "t", [], [], [], []⟩) = .ok msg
      ∧ str "3. Memory:" <:+: messageText msg := by
  refine ⟨rfl, _, rfl, ?_⟩
  rw [← containsSeg_iff_infix]
  decide

/-- C8 (amended): the observation message's numbered field list contains the
active variant's StepState fields — all of them, empty or not — in order
(task, hints, memory for V1; task, hints, prior-action evaluation, memory,
task progress, future plans for V2), followed by the current URL, the open
tabs and the interactive-element listing. -/
theorem numbered_fields_always :
    (∀ (state : BrowserState) (actions : Option (List ActionModel))
        (result : Option (List ActionResult)) (maxErr : Nat)
        (si : CustomAgentStepInfo) (msg : HumanMessage),
        customAgentGetUserMessage state actions result maxErr (some si) = .ok msg →
        ∃ pre post, messageText msg =
          pre ++ str "1. Task: " ++ si.task ++ str ". \n2. Hints(Optional): \n" ++
          si.addInfos ++ str "\n3. Memory: \n" ++ si.memory ++
          str "\n4. Current url: " ++ state.url ++
          str "\n5. Available tabs:\n" ++ state.tabs ++
          str "\n6. Interactive elements:\n" ++
          wrapElementsText state.elementsText state.pixelsAbove state.pixelsBelow ++ post)
    ∧ (∀ (state : BrowserState) (actions : Option (List ActionModel))
        (result : Option (List ActionResult)) (maxErr : Nat)
        (si : CustomAgentStepInfoV2) (msg : HumanMessage),
        customAgentV2GetUserMessage state actions result maxErr (some si) = .ok msg →
        ∃ pre post, messageText msg =
          pre ++ str "1. Task: " ++ si.task ++ str "\n    2. Hints(Optional): \n    " ++
          si.addInfos ++ str "\n    3. Previous Action Evaluation:\n    " ++
          si.prevActionEvaluation ++ str "\n    4. Memory: \n    " ++ si.memory ++
          str "\n    5. Task Progress: \n    " ++ si.taskProgress ++
          str "\n    6. Future Plans:\n    " ++ si.futurePlans ++
          str "\n    7. Current url: " ++ state.url ++
          str "\n    8. Available tabs:\n    " ++ state.tabs ++
          str "\n    9. Interactive elements:\n    " ++
          wrapElementsText state.elementsText state.pixelsAbove state.pixelsBelow ++ post) := by
  constructor
  · intro state actions result maxErr si msg h
    obtain ⟨block, -, htext⟩ := customAgent_ok_shape h
    refine ⟨str "\nCurrent step: " ++ str (toString si.stepNumber) ++ str "/" ++
      str (toString si.maxSteps) ++ str "\n\n", str "\n        " ++ block, ?_⟩
    rw [htext]
    unfold v1StateDescription
    have h1 : str "\n\n1. Task: " = str "\n\n" ++ str "1. Task: " := by decide
    rw [h1]
    simp [List.append_assoc]
  · intro state actions result maxErr si msg h
    obtain ⟨block, -, htext⟩ := v2_ok_shape h
    refine ⟨str "Current Step: " ++ str (toString si.stepNumber) ++ str "/" ++
      str (toString si.maxSteps) ++ str "\n" ++ str "\n    ",
      str "\n            " ++ block, ?_⟩
    rw [htext]
    unfold v2StateDescription
    have h1 : str "\n    1. Task: " = str "\n    " ++ str "1. Task: " := by decide
    rw [h1]
    simp [List.append_assoc]

/-- Witness for `numbered_fields_always`: the V1 prompt at a concrete
snapshot. -/
theorem numbered_fields_always_witness :
    ∃ msg, customAgentGetUserMessage ⟨str "u", str "[]", str "el", none, none, none⟩
        none none 400 (some ⟨3, 7, str "do it", str "hint", str "mem", [], []⟩) = .ok msg
      ∧ ∃ pre post, messageText msg =
          pre ++ str "1. Task: " ++ str "do it" ++ str ". \n2. Hints(Optional): \n" ++
          str "hint" ++ str "\n3. Memory: \n" ++ str "mem" ++
          str "\n4. Current url: " ++ str "u" ++
          str "\n5. Available tabs:\n" ++ str "[]" ++
          str "\n6. Interactive elements:\n" ++
          wrapElementsText (str "el") none none ++ post :=
  ⟨_, rfl, numbered_fields_always.1 ⟨str "u", str "[]", str "el", none, none, none⟩
    none none 400 ⟨3, 7, str "do it", str "hint", str "mem", [], []⟩ _ rfl⟩

/-- C9: the previous-actions loop reads `self.actions[i]` for every
`i < len(self.result)`; when both lists are non-empty it completes for every
input with `len(result) ≤ len(actions)` and raises `IndexError` (in every
prompt variant) whenever the results list is strictly longer. -/
theorem prev_actions_index_safety :
    (∀ (maxErr : Nat) (as : List ActionModel) (rs : List ActionResult),
      rs.length ≤ as.length →
      (∃ s, prevActionsLines maxErr as rs = .ok s)
      ∧ (∃ s, monitorPrevActionsLines maxErr as rs = .ok s))
    ∧ (∀ (maxErr : Nat) (as : List ActionModel) (rs : List ActionResult),
      rs ≠ [] → as.length < rs.length →
      prevActionsLines maxErr as rs = .error .indexError
      ∧ monitorPrevActionsLines maxErr as rs = .error .indexError)
    ∧ (∀ (state : BrowserState) (si : CustomAgentStepInfo) (maxErr : Nat)
        (as : List ActionModel) (rs : List ActionResult),
      as ≠ [] → rs ≠ [] → as.length < rs.length →
      customAgentGetUserMessage state (some as) (some rs) maxErr (some si) =
        .error .indexError)
    ∧ (∀ (state : BrowserState) (si : CustomAgentStepInfo) (maxErr : Nat)
        (as : List ActionModel) (rs : List ActionResult),
      as ≠ [] → rs ≠ [] → as.length < rs.length →
      monitorAgentGetUserMessage state (some as) (some rs) maxErr (some si) =
        .error .indexError)
    ∧ (∀ (state : BrowserState) (si : CustomAgentStepInfoV2) (maxErr : Nat)
        (as : List ActionModel) (rs : List ActionResult),
      as ≠ [] → rs ≠ [] → as.length < rs.length →
      customAgentV2GetUserMessage state (some as) (some rs) maxErr (some si) =
        .error .indexError) := by
  have hok : ∀ (maxErr : Nat) (as : List ActionModel) (rs : List ActionResult),
      rs.length ≤ as.length →
      (∃ s, prevActionsLines maxErr as rs = .ok s)
      ∧ (∃ s, monitorPrevActionsLines maxErr as rs = .ok s) := by
    intro maxErr as rs h
    obtain ⟨c1, -, hg1, -⟩ := prevGo_spec (resultLine maxErr rs.length) as rs 0 (by omega)
    obtain ⟨c2, -, hg2, -⟩ :=
      prevGo_spec (monitorResultLine maxErr rs.length) as rs 0 (by omega)
    exact ⟨⟨c1.flatten, hg1⟩, ⟨c2.flatten, hg2⟩⟩
  have herr : ∀ (maxErr : Nat) (as : List ActionModel) (rs : List ActionResult),
      rs ≠ [] → as.length < rs.length →
      prevActionsLines maxErr as rs = .error .indexError
      ∧ monitorPrevActionsLines maxErr as rs = .error .indexError := by
    intro maxErr as rs hr h
    exact ⟨prevGo_oob (resultLine maxErr rs.length) as rs 0 hr (by omega),
      prevGo_oob (monitorResultLine maxErr rs.length) as rs 0 hr (by omega)⟩
  refine ⟨hok, herr, ?_, ?_, ?_⟩
  · intro state si maxErr as rs ha hr h
    have hb : v1Block (some as) (some rs) maxErr si = .error .indexError := by
      unfold v1Block
      dsimp only
      rw [if_neg (by simp [List.isEmpty_iff, ha, hr]), (herr maxErr as rs hr h).1]
    simp [customAgentGetUserMessage, hb]
  · intro state si maxErr as rs ha hr h
    have hb : monitorBlock (some as) (some rs) maxErr si = .error .indexError := by
      unfold monitorBlock
      dsimp only
      rw [if_neg (by simp [List.isEmpty_iff, ha, hr]), (herr maxErr as rs hr h).2]
    simp [monitorAgentGetUserMessage, hb]
  · intro state si maxErr as rs ha hr h
    have hb : v2Block (some as) (some rs) maxErr si = .error .indexError := by
      unfold v2Block
      dsimp only
      rw [if_neg (by simp [List.isEmpty_iff, ha, hr]), (herr maxErr as rs hr h).1]
    simp [customAgentV2GetUserMessage, hb]

/-- Witness for `prev_actions_index_safety`: one action with two results
raises `IndexError`; two actions with one result completes. -/
theorem prev_actions_index_safety_witness :
    customAgentGetUserMessage ⟨str "u", str "[]", str "el", none, none, none⟩
      (some [⟨str "a"⟩]) (some [⟨none, none, false⟩, ⟨none, none, false⟩]) 400
      (some ⟨2, 10, str "t", [], [], [], []⟩) = .error .indexError
    ∧ ∃ s, prevActionsLines 400 [⟨str "a"⟩, ⟨str "b"⟩] [⟨none, none, false⟩] = .ok s :=
  ⟨prev_actions_index_safety.2.2.1 ⟨str "u", str "[]", str "el", none, none, none⟩
      ⟨2, 10, str "t", [], [], [], []⟩ 400 [⟨str "a"⟩]
      [⟨none, none, false⟩, ⟨none, none, false⟩] (by simp) (by simp) (by simp),
   (prev_actions_index_safety.1 400 [⟨str "a"⟩, ⟨str "b"⟩] [⟨none, none, false⟩]
      (by simp)).1⟩

/-- C10: `copy_to_clipboard` returns exactly its input text as
`extracted_content` with `include_in_memory` left at its default `False`,
so its result contributes only the action line to the next step's prompt;
`extract_content` sets `include_in_memory = True` and its (always
non-empty) message is therefore always rendered into the next step's
prompt. -/
theorem custom_actions_memory_flags :
    (∀ text : Str, (copy_to_clipboard text).extractedContent = some text
      ∧ (copy_to_clipboard text).includeInMemory = false
      ∧ (copy_to_clipboard text).error = none)
    ∧ (∀ content : Str, (extract_content content).includeInMemory = true)
    ∧ (∀ (maxErr n i : Nat) (a : ActionModel) (text : Str),
        resultLine maxErr n i a (copy_to_clipboard text) =
          str "Previous action " ++ str (toString (i + 1)) ++ str "/" ++
          str (toString n) ++ str ": " ++ a.modelDumpJson ++ str "\n")
    ∧ (∀ (maxErr n i : Nat) (a : ActionModel) (content : Str),
        resultLine maxErr n i a (extract_content content) =
          (str "Previous action " ++ str (toString (i + 1)) ++ str "/" ++
            str (toString n) ++ str ": " ++ a.modelDumpJson ++ str "\n") ++
          (str "Result of previous action " ++ str (toString (i + 1)) ++ str "/" ++
            str (toString n) ++ str ": " ++
            (str "📄  Extracted page content\n: " ++ content ++ str "\n") ++ str "\n")) := by
  refine ⟨fun text => ⟨rfl, rfl, rfl⟩, fun content => rfl, ?_, ?_⟩
  · intro maxErr n i a text
    unfold resultLine copy_to_clipboard
    rfl
  · intro maxErr n i a content
    unfold resultLine extract_content
    have hct : truthy (some (str "📄  Extracted page content\n: " ++ content ++ str "\n")) =
        true := by
      simp [truthy, List.isEmpty_iff]
      intro h1 h2
      decide
    have hce : truthy (none : Option Str) = false := rfl
    simp only [hct, hce, if_true, if_false, Bool.false_eq_true, Option.getD_some]
    simp [List.append_assoc]
